import Mathlib

set_option linter.unusedVariables false

/-!
Verification development for the voice-agent repository.

The development shallowly embeds the parts of the code the specification's
claims are about:

* the agent-identifier extraction performed by the worker's entrypoint
  (agent_worker.py, agent_entrypoint, lines 93-109);
* the AgentProfile pydantic model, the ConfigManager cache with get_profile
  and invalidate (main.py, lines 36-123);
* the token endpoint generate_token (main.py, lines 146-189).

Stateful code is embedded as explicit state passing (the manager is threaded
through get_profile and invalidate); the external HTTP fetch is an input to
get_profile since it is I/O; exceptions are embedded as Except values caught
exactly where the source catches them.
-/

/-- JSON values, modelling the result of Python json.loads. -/
inductive Json where
  | null : Json
  | bool : Bool → Json
  | num : Int → Json
  | str : String → Json
  | arr : List Json → Json
  | obj : List (String × Json) → Json
deriving Repr

/-- First binding of a key in a parsed JSON object (Python dict lookup;
json.loads keeps one binding per key, so the parsed object has distinct keys). -/
def lookupField (fields : List (String × Json)) (key : String) : Option Json :=
  match fields with
  | [] => none
  | (k, v) :: rest => if k = key then some v else lookupField rest key

/-- Python str.startswith, computed on the character list so that it evaluates
in the kernel. -/
def pyStartsWith (s pre : String) : Bool :=
  pre.data.isPrefixOf s.data

/-- Splits a character list at every occurrence of the separator, keeping empty
segments, exactly like Python str.split with an explicit one-character
separator; the empty string yields one empty segment. -/
def splitOnChar (c : Char) : List Char → List (List Char)
  | [] => [[]]
  | x :: xs =>
    let r := splitOnChar c xs
    if x = c then [] :: r
    else
      match r with
      | [] => [[x]]
      | h :: t => (x :: h) :: t

/-- Python str.split with a one-character separator. -/
def pySplit (s : String) (c : Char) : List String :=
  (splitOnChar c s.data).map String.mk

/-- Metadata branch of agent_entrypoint (agent_worker.py lines 94-100).
The input is the parse result of json.loads on ctx.room.metadata: none models
metadata that is absent, empty, or not valid JSON. When the parse result is an
object, the code runs metadata.get with key agent_id and fallback the string
value of the word default, so a present binding is returned as-is (any JSON
value, including null) and an absent binding gives the fallback. When the
parse result is a non-object JSON value, the attribute error raised by .get is
swallowed by the bare except and the identifier stays at the fallback. -/
def metaAgentId (metadata : Option Json) : Json :=
  match metadata with
  | some (Json.obj fields) => (lookupField fields "agent_id").getD (Json.str "default")
  | _ => Json.str "default"

/-- Agent-identifier extraction of agent_entrypoint (agent_worker.py lines
93-107): after the metadata branch, if the room name starts with the prologue
test and a hyphen, the room name is split on hyphens and, when at least two
parts result, parts[1] overrides the metadata-derived identifier. -/
def extract_agent_id (metadata : Option Json) (room_name : String) : Json :=
  let agent_id := metaAgentId metadata
  if pyStartsWith room_name "test-" then
    let parts := pySplit room_name '-'
    if parts.length ≥ 2 then Json.str (parts.getD 1 "") else agent_id
  else agent_id

/-- Pydantic model AgentProfile (main.py lines 36-46), with the class-level
field defaults declared there. -/
structure AgentProfile where
  id : String := "default"
  name : String := "Lead Nurturing Agent"
  language : String := "hi-IN"
  voice : String := "arya"
  system_prompt : String := ""
  greeting : String := ""
  qualification_questions : List String := []
  transfer_keywords : List String := []
  fallback_message : String := ""
deriving Repr, DecidableEq

/-- Validation of one str-typed pydantic field: an absent binding takes the
class default, a JSON string validates, and any other JSON value is a
ValidationError (pydantic v2 does not coerce numbers, booleans or null to
str), reported as none. -/
def getStrField (fields : List (String × Json)) (key : String) (dflt : String) :
    Option String :=
  match lookupField fields key with
  | none => some dflt
  | some (Json.str s) => some s
  | some _ => none

/-- Validation of a JSON array as a pydantic list of str: every element must be
a JSON string. -/
def jsonStrList : List Json → Option (List String)
  | [] => some []
  | Json.str s :: rest => (jsonStrList rest).map (fun l => s :: l)
  | _ :: _ => none

/-- Validation of one list-of-str-typed pydantic field: absent takes the class
default, a JSON array of strings validates, anything else is a
ValidationError. -/
def getStrListField (fields : List (String × Json)) (key : String)
    (dflt : List String) : Option (List String) :=
  match lookupField fields key with
  | none => some dflt
  | some (Json.arr xs) => jsonStrList xs
  | some _ => none

/-- Pydantic construction AgentProfile(**data) (main.py line 110) on a parsed
JSON body. A non-object body raises (the double-star unpacking needs a
mapping), a present field of the wrong type raises a ValidationError — both
give none; an absent field takes the class default declared on AgentProfile;
extra fields are ignored (pydantic default configuration). -/
def agentProfileOfJson : Json → Option AgentProfile
  | Json.obj fields => do
      let id ← getStrField fields "id" "default"
      let name ← getStrField fields "name" "Lead Nurturing Agent"
      let language ← getStrField fields "language" "hi-IN"
      let voice ← getStrField fields "voice" "arya"
      let system_prompt ← getStrField fields "system_prompt" ""
      let greeting ← getStrField fields "greeting" ""
      let qualification_questions ← getStrListField fields "qualification_questions" []
      let transfer_keywords ← getStrListField fields "transfer_keywords" []
      let fallback_message ← getStrField fields "fallback_message" ""
      pure { id := id, name := name, language := language, voice := voice,
             system_prompt := system_prompt, greeting := greeting,
             qualification_questions := qualification_questions,
             transfer_keywords := transfer_keywords,
             fallback_message := fallback_message }
  | _ => none

/-- Detects a str-typed field that is present but not a JSON string. -/
def strFieldBad (fields : List (String × Json)) (key : String) : Bool :=
  match lookupField fields key with
  | some (Json.str _) => false
  | some _ => true
  | none => false

/-- Detects a list-of-str-typed field that is present but not a JSON array of
strings. -/
def strListFieldBad (fields : List (String × Json)) (key : String) : Bool :=
  match lookupField fields key with
  | some (Json.arr xs) =>
      xs.any (fun j => match j with | Json.str _ => false | _ => true)
  | some _ => true
  | none => false

/-- A response body that pydantic rejects: not a JSON object, or some
AgentProfile field present with the wrong type. -/
def someFieldMistyped : Json → Bool
  | Json.obj fields =>
      strFieldBad fields "id" || strFieldBad fields "name" ||
      strFieldBad fields "language" || strFieldBad fields "voice" ||
      strFieldBad fields "system_prompt" || strFieldBad fields "greeting" ||
      strListFieldBad fields "qualification_questions" ||
      strListFieldBad fields "transfer_keywords" ||
      strFieldBad fields "fallback_message"
  | _ => true

/-- Environment variables read by ConfigManager (os.getenv with the defaults
used in main.py). -/
structure Env where
  N8N_BASE_URL : String := ""
  DEFAULT_LANGUAGE : String := "hi-IN"
  DEFAULT_VOICE : String := "arya"
deriving Repr, DecidableEq

/-- ConfigManager._create_default (main.py lines 63-97): the built-in default
profile, with the literal prompt, greeting, questions, keywords and fallback
message from the source. -/
def _create_default (env : Env) : AgentProfile :=
  { id := "default"
    name := "Lead Nurturing Agent"
    language := env.DEFAULT_LANGUAGE
    voice := env.DEFAULT_VOICE
    system_prompt := "You are a friendly lead nurturing agent for real estate.

Your role:
- Greet callers warmly in Hindi or their preferred language
- Understand their property requirements
- Qualify leads by asking about budget, location, timeline
- Schedule property visits

Guidelines:
- Be warm, professional, and patient
- Use Hinglish (Hindi + English mix) naturally
- Always confirm information before ending

Collect these details:
1. Name
2. Budget range
3. Preferred location/area
4. Property type (apartment/villa/plot)
5. Timeline to buy
6. Best time for site visit"
    greeting := "नमस्ते! RAA Estate में आपका स्वागत है। मैं आपकी कैसे मदद कर सकता हूं?"
    qualification_questions :=
      ["आपका बजट क्या है?",
       "आप किस एरिया में प्रॉपर्टी देख रहे हैं?",
       "कब तक खरीदना चाहते हैं?"]
    transfer_keywords := ["manager", "human", "complaint"]
    fallback_message := "माफ कीजिए, मैं समझ नहीं पाया। क्या आप दोबारा बता सकते हैं?" }

/-- State of ConfigManager (main.py lines 48-56): the configured base URL, the
mutable profile cache (a Python dict, embedded as an association list with
distinct keys), and the built-in default profile created once in the
constructor. -/
structure ConfigManager where
  n8n_base : String
  _cache : List (String × AgentProfile)
  _default : AgentProfile
deriving Repr, DecidableEq

/-- ConfigManager.__init__ (main.py lines 51-56): reads the base URL from the
environment, starts with an empty cache, and builds the default profile. -/
def ConfigManager.init (env : Env) : ConfigManager :=
  { n8n_base := env.N8N_BASE_URL
    _cache := []
    _default := _create_default env }

/-- Python dict membership and subscription used by get_profile. -/
def lookupCache (c : List (String × AgentProfile)) (k : String) :
    Option AgentProfile :=
  match c with
  | [] => none
  | (k', v) :: rest => if k' = k then some v else lookupCache rest k

/-- Python dict.pop with a fallback: removes the binding of the key if
present. -/
def eraseKey (c : List (String × AgentProfile)) (k : String) :
    List (String × AgentProfile) :=
  c.filter (fun kv => kv.1 != k)

/-- Python dict assignment used to store a fetched profile. -/
def insertCache (c : List (String × AgentProfile)) (k : String)
    (p : AgentProfile) : List (String × AgentProfile) :=
  eraseKey c k ++ [(k, p)]

/-- Outcome of the HTTP GET to the config webhook as seen by get_profile:
err models any exception raised before a response arrives (connection error,
timeout); resp carries the status code and, with it, the parse result of
response.json() (none when the body is not valid JSON). -/
inductive FetchOutcome where
  | err : FetchOutcome
  | resp : Nat → Option Json → FetchOutcome
deriving Repr

/-- Body of the try block of get_profile (main.py lines 104-113) with every
raising path explicit: ok with a profile is a validated 200 response, ok
without one is the fall-through for a non-200 status (the source has no else
branch, so control reaches the final return), and error is a raised exception
— network error, timeout, JSON decode error, or pydantic ValidationError. -/
def tryFetch (f : FetchOutcome) : Except String (Option AgentProfile) :=
  match f with
  | FetchOutcome.err => Except.error "request raised"
  | FetchOutcome.resp code body =>
    if code = 200 then
      match body with
      | none => Except.error "response JSON decode raised"
      | some b =>
        match agentProfileOfJson b with
        | none => Except.error "pydantic ValidationError"
        | some p => Except.ok (some p)
    else Except.ok none

/-- Profile successfully produced by the fetch, if any: the fetch succeeds
exactly when the response has status 200 and a body that validates as an
AgentProfile; every other outcome is a failure. -/
def fetchYieldsProfile (f : FetchOutcome) : Option AgentProfile :=
  match tryFetch f with
  | Except.ok (some p) => some p
  | Except.ok none => none
  | Except.error _ => none

/-- ConfigManager.get_profile (main.py lines 99-117) as a state-passing
function: cache hit returns the cached profile unchanged; on a miss, if a base
URL is configured (Python string truthiness), the fetch is attempted — a
validated 200 response is stored in the cache and returned, every exception is
caught and logged, and all remaining paths return the built-in default without
touching the cache. Returns the profile and the updated manager. -/
def get_profile (cm : ConfigManager) (agent_id : String) (f : FetchOutcome) :
    AgentProfile × ConfigManager :=
  match lookupCache cm._cache agent_id with
  | some p => (p, cm)
  | none =>
    if cm.n8n_base ≠ "" then
      match tryFetch f with
      | Except.ok (some profile) =>
          (profile, { cm with _cache := insertCache cm._cache agent_id profile })
      | Except.ok none => (cm._default, cm)
      | Except.error _ => (cm._default, cm)
    else (cm._default, cm)

/-- Python default argument of get_profile: a call with the argument absent is
a call with the string default. -/
def get_profile_opt (cm : ConfigManager) (agent_id : Option String)
    (f : FetchOutcome) : AgentProfile × ConfigManager :=
  get_profile cm (agent_id.getD "default") f

/-- ConfigManager.invalidate (main.py lines 119-123). The argument none models
the omitted argument (Python default None). The source guard is string
truthiness, so both None and the empty string take the clear branch that
empties the whole cache; a non-empty identifier pops only its own binding. -/
def invalidate (cm : ConfigManager) (agent_id : Option String) : ConfigManager :=
  match agent_id with
  | some s =>
      if s ≠ "" then { cm with _cache := eraseKey cm._cache s }
      else { cm with _cache := [] }
  | none => { cm with _cache := [] }

/-- Environment variables read by generate_token (main.py lines 158-182):
os.getenv returns none when a variable is unset. -/
structure ServerEnv where
  LIVEKIT_API_KEY : Option String := none
  LIVEKIT_API_SECRET : Option String := none
  LIVEKIT_URL : Option String := none
deriving Repr, DecidableEq

/-- Recognized fields of the parsed JSON body of a token request (main.py
lines 150-154); each is optional and read with data.get and a default. The
fields are embedded at string type, the type the demo client sends and the
only one the claims quantify over. -/
structure TokenBody where
  agentId : Option String := none
  language : Option String := none
  voice : Option String := none
  userName : Option String := none
deriving Repr, DecidableEq

/-- The VideoGrants record built in generate_token (main.py lines 165-170). -/
structure VideoGrants where
  room : String
  room_join : Bool
  can_publish : Bool
  can_subscribe : Bool
deriving Repr, DecidableEq

/-- The JSON object returned by generate_token on success (main.py lines
179-184). -/
structure TokenResponse where
  token : String
  roomName : String
  livekitUrl : Option String
  agentId : String
deriving Repr, DecidableEq

/-- Python truthiness of an optional string: None and the empty string are
falsy. -/
def pyTruthy : Option String → Bool
  | none => false
  | some s => s != ""

/-- The token endpoint generate_token (main.py lines 146-189). The signing
call on the external AccessToken object — with_identity and with_name both
receive user_name, with_grants receives the grant, to_jwt produces the token —
is embedded as the function argument sign, applied to the key, the secret, the
identity, the name, and the grant; everything else is computed as in the
source: defaults for the absent body fields, the room name built from the
literal test marker, the agent identifier and the unix-seconds timestamp, and
a 500 error when either credential is unset or empty. The source reads the
clock twice (room name and default user name); both reads are modelled at the
same instant ts. -/
def generate_token (sign : String → String → String → String → VideoGrants → String)
    (env : ServerEnv) (body : TokenBody) (ts : Nat) :
    Except (Nat × String) TokenResponse :=
  let agent_id := body.agentId.getD "default"
  let language := body.language.getD "hi-IN"
  let voice := body.voice.getD "arya"
  let user_name := body.userName.getD ("Tester-" ++ toString ts)
  let room_name := "test-" ++ agent_id ++ "-" ++ toString ts
  if pyTruthy env.LIVEKIT_API_KEY && pyTruthy env.LIVEKIT_API_SECRET then
    let api_key := env.LIVEKIT_API_KEY.getD ""
    let api_secret := env.LIVEKIT_API_SECRET.getD ""
    let grant : VideoGrants :=
      { room := room_name, room_join := true, can_publish := true,
        can_subscribe := true }
    let jwt_token := sign api_key api_secret user_name user_name grant
    Except.ok { token := jwt_token, roomName := room_name,
                livekitUrl := env.LIVEKIT_URL, agentId := agent_id }
  else Except.error (500, "LiveKit credentials not configured")

/-! Concrete fixtures used by witnesses and counterexamples. -/

/-- A manager with a configured source, an empty cache and a small default
profile, as a concrete state for witnesses. -/
def cmFix : ConfigManager :=
  { n8n_base := "http://n8n.example", _cache := [], _default := {} }

/-- Environment with a configured base URL. -/
def envFix : Env := { N8N_BASE_URL := "http://n8n.example" }

/-- The manager built by the constructor under envFix. -/
def cmInit : ConfigManager := ConfigManager.init envFix

/-- A valid fetched profile body: id and name set, other fields absent. -/
def bodyFix : Json := Json.obj [("id", Json.str "x1"), ("name", Json.str "X")]

/-- The profile that bodyFix validates to. -/
def pFix : AgentProfile := { id := "x1", name := "X" }

/-- A successful fetch outcome carrying bodyFix. -/
def fOk : FetchOutcome := FetchOutcome.resp 200 (some bodyFix)

/-- A failing fetch outcome: HTTP 404. -/
def f404 : FetchOutcome := FetchOutcome.resp 404 none

/-- A concrete signing function for witnesses, returning a fixed JWS-shaped
string. -/
def signFix : String → String → String → String → VideoGrants → String :=
  fun _ _ _ _ _ => "hh.pp.ss"

/-- Server environment with both signing credentials set. -/
def serverEnvFix : ServerEnv :=
  { LIVEKIT_API_KEY := some "APIkey", LIVEKIT_API_SECRET := some "secret",
    LIVEKIT_URL := some "wss://lk.example" }

/-- A manager with no configured source and one cached entry under the key a. -/
def cmC6 : ConfigManager :=
  { n8n_base := "", _cache := [("a", ({} : AgentProfile))], _default := {} }

/-- A manager with a configured source and a cached entry for acme. -/
def cmHit : ConfigManager :=
  { n8n_base := "http://n8n.example", _cache := [("acme", pFix)], _default := {} }

/-! Helper lemmas shared by the claim theorems. -/

theorem digitChar_isDigit (d : Nat) (hd : d < 10) : (Nat.digitChar d).isDigit = true := by
  interval_cases d <;> rfl

theorem toDigitsCore_isDigit : ∀ (f n : Nat) (acc : List Char),
    (∀ c ∈ acc, c.isDigit = true) → ∀ c ∈ Nat.toDigitsCore 10 f n acc, c.isDigit = true := by
  intro f
  induction f with
  | zero => intro n acc hacc; simpa [Nat.toDigitsCore] using hacc
  | succ f ih =>
    intro n acc hacc c hc
    rw [Nat.toDigitsCore] at hc
    by_cases h0 : n / 10 = 0
    · rw [if_pos h0] at hc
      rcases List.mem_cons.mp hc with h | h
      · subst h; exact digitChar_isDigit _ (Nat.mod_lt _ (by decide))
      · exact hacc _ h
    · rw [if_neg h0] at hc
      refine ih (n / 10) (Nat.digitChar (n % 10) :: acc) ?_ c hc
      intro c' hc'
      rcases List.mem_cons.mp hc' with h | h
      · subst h; exact digitChar_isDigit _ (Nat.mod_lt _ (by decide))
      · exact hacc _ h

theorem toDigitsCore_length_le : ∀ (f n : Nat) (acc : List Char),
    acc.length ≤ (Nat.toDigitsCore 10 f n acc).length := by
  intro f
  induction f with
  | zero => intro n acc; simp [Nat.toDigitsCore]
  | succ f ih =>
    intro n acc
    rw [Nat.toDigitsCore]
    by_cases h0 : n / 10 = 0
    · rw [if_pos h0]; simp
    · rw [if_neg h0]
      calc acc.length ≤ (Nat.digitChar (n % 10) :: acc).length := by simp
        _ ≤ _ := ih (n / 10) _

theorem natToString_digits (n : Nat) :
    (toString n).data ≠ [] ∧ ∀ c ∈ (toString n).data, c.isDigit = true := by
  have hdata : (toString n).data = Nat.toDigits 10 n := rfl
  constructor
  · rw [hdata]
    unfold Nat.toDigits
    intro h
    rw [Nat.toDigitsCore] at h
    by_cases h0 : n / 10 = 0
    · rw [if_pos h0] at h; simp at h
    · rw [if_neg h0] at h
      have h1 := toDigitsCore_length_le n (n / 10) (Nat.digitChar (n % 10) :: [])
      rw [h] at h1
      simp at h1
  · rw [hdata]
    exact toDigitsCore_isDigit (n + 1) n [] (by intro c hc; cases hc)

theorem natToString_ne_empty (n : Nat) : toString n ≠ "" := by
  intro h
  exact (natToString_digits n).1 (congrArg String.data h)

theorem lookupCache_cons (kv : String × AgentProfile)
    (rest : List (String × AgentProfile)) (k : String) :
    lookupCache (kv :: rest) k =
      if kv.1 = k then some kv.2 else lookupCache rest k := by
  rcases kv with ⟨k', v⟩
  rfl

theorem lookupCache_eraseKey_self (c : List (String × AgentProfile)) (k : String) :
    lookupCache (eraseKey c k) k = none := by
  induction c with
  | nil => rfl
  | cons kv rest ih =>
    unfold eraseKey at ih ⊢
    rw [List.filter_cons]
    by_cases h : kv.1 = k
    · rw [if_neg (by simp [h])]
      exact ih
    · rw [if_pos (by simp [bne_iff_ne]; exact h), lookupCache_cons, if_neg h]
      exact ih

theorem lookupCache_eraseKey_ne (c : List (String × AgentProfile)) (k k2 : String)
    (h : k2 ≠ k) : lookupCache (eraseKey c k) k2 = lookupCache c k2 := by
  induction c with
  | nil => rfl
  | cons kv rest ih =>
    unfold eraseKey at ih ⊢
    rw [List.filter_cons]
    by_cases h1 : kv.1 = k
    · rw [if_neg (by simp [h1]), lookupCache_cons,
        if_neg (by rw [h1]; exact fun hh => h hh.symm)]
      exact ih
    · rw [if_pos (by simp [bne_iff_ne]; exact h1), lookupCache_cons, lookupCache_cons]
      by_cases h2 : kv.1 = k2
      · rw [if_pos h2, if_pos h2]
      · rw [if_neg h2, if_neg h2]
        exact ih

theorem get_profile_hit (cm : ConfigManager) (aid : String) (f : FetchOutcome)
    (p : AgentProfile) (hhit : lookupCache cm._cache aid = some p) :
    get_profile cm aid f = (p, cm) := by
  unfold get_profile
  rw [hhit]

theorem get_profile_fail (cm : ConfigManager) (aid : String) (f : FetchOutcome)
    (hmiss : lookupCache cm._cache aid = none)
    (hfail : cm.n8n_base = "" ∨ fetchYieldsProfile f = none) :
    get_profile cm aid f = (cm._default, cm) := by
  unfold get_profile
  rw [hmiss]
  rcases hfail with h | h
  · rw [h]; simp
  · by_cases hb : cm.n8n_base ≠ ""
    · rw [if_pos hb]
      unfold fetchYieldsProfile at h
      cases htf : tryFetch f with
      | error e => rfl
      | ok o =>
        cases o with
        | none => rfl
        | some p => rw [htf] at h; simp at h
    · rw [if_neg hb]

theorem get_profile_success (cm : ConfigManager) (aid : String) (f : FetchOutcome)
    (p : AgentProfile) (hmiss : lookupCache cm._cache aid = none)
    (hb : cm.n8n_base ≠ "") (hok : fetchYieldsProfile f = some p) :
    get_profile cm aid f =
      (p, { cm with _cache := insertCache cm._cache aid p }) := by
  unfold get_profile
  rw [hmiss, if_pos hb]
  unfold fetchYieldsProfile at hok
  cases htf : tryFetch f with
  | error e => rw [htf] at hok; simp at hok
  | ok o =>
    cases o with
    | none => rw [htf] at hok; simp at hok
    | some q =>
      rw [htf] at hok
      simp at hok
      subst hok
      rfl

theorem opt_bind_none_r {α β : Type} (x : Option α) :
    (Option.bind x fun _ => (none : Option β)) = none := by
  cases x <;> rfl

theorem getStrField_bad (fields : List (String × Json)) (k d : String)
    (h : strFieldBad fields k = true) : getStrField fields k d = none := by
  unfold strFieldBad at h
  unfold getStrField
  cases hl : lookupField fields k with
  | none => rw [hl] at h; exact Bool.noConfusion h
  | some v =>
    rw [hl] at h
    cases v with
    | str s => exact Bool.noConfusion h
    | null => rfl
    | bool b => rfl
    | num x => rfl
    | arr ys => rfl
    | obj fs => rfl

theorem jsonStrList_bad : ∀ xs : List Json,
    xs.any (fun j => match j with | Json.str _ => false | _ => true) = true →
    jsonStrList xs = none := by
  intro xs
  induction xs with
  | nil => intro h; exact Bool.noConfusion h
  | cons j rest ih =>
    intro h
    cases j with
    | str s =>
      rw [List.any_cons] at h
      simp only [Bool.false_or] at h
      simp only [jsonStrList, ih h, Option.map_none']
    | null => rfl
    | bool b => rfl
    | num x => rfl
    | arr ys => rfl
    | obj fs => rfl

theorem getStrListField_bad (fields : List (String × Json)) (k : String)
    (d : List String) (h : strListFieldBad fields k = true) :
    getStrListField fields k d = none := by
  unfold strListFieldBad at h
  unfold getStrListField
  cases hl : lookupField fields k with
  | none => rw [hl] at h; exact Bool.noConfusion h
  | some v =>
    rw [hl] at h
    cases v with
    | arr xs => exact jsonStrList_bad xs h
    | null => rfl
    | bool b => rfl
    | num x => rfl
    | str s => rfl
    | obj fs => rfl

theorem mistyped_profile_none (body : Json) (h : someFieldMistyped body = true) :
    agentProfileOfJson body = none := by
  cases body with
  | obj fields =>
    simp only [someFieldMistyped, Bool.or_eq_true] at h
    rcases h with ((((((((h | h) | h) | h) | h) | h) | h) | h) | h)
    · simp [agentProfileOfJson, getStrField_bad fields "id" "default" h, opt_bind_none_r]
    · simp [agentProfileOfJson, getStrField_bad fields "name" "Lead Nurturing Agent" h,
        opt_bind_none_r]
    · simp [agentProfileOfJson, getStrField_bad fields "language" "hi-IN" h, opt_bind_none_r]
    · simp [agentProfileOfJson, getStrField_bad fields "voice" "arya" h, opt_bind_none_r]
    · simp [agentProfileOfJson, getStrField_bad fields "system_prompt" "" h, opt_bind_none_r]
    · simp [agentProfileOfJson, getStrField_bad fields "greeting" "" h, opt_bind_none_r]
    · simp [agentProfileOfJson,
        getStrListField_bad fields "qualification_questions" [] h, opt_bind_none_r]
    · simp [agentProfileOfJson,
        getStrListField_bad fields "transfer_keywords" [] h, opt_bind_none_r]
    · simp [agentProfileOfJson, getStrField_bad fields "fallback_message" "" h, opt_bind_none_r]
  | null => rfl
  | bool b => rfl
  | num x => rfl
  | str s => rfl
  | arr xs => rfl

theorem fetchYieldsProfile_resp200 (body : Json) :
    fetchYieldsProfile (FetchOutcome.resp 200 (some body)) = agentProfileOfJson body := by
  unfold fetchYieldsProfile tryFetch
  simp only [if_pos rfl]
  cases h : agentProfileOfJson body <;> simp [h]

/-! Claim theorems. -/

/-- C1 counterexample: metadata that parses as JSON with an agent_id field does
NOT win when the room name also starts with the test marker — at metadata
agent_id zeta and room name test-acme-1700000000 the extracted identifier is
acme, not zeta, so the claimed precedence (metadata first) is false. -/
theorem C1_precedence_counterexample :
    extract_agent_id (some (Json.obj [("agent_id", Json.str "zeta")]))
        "test-acme-1700000000" = Json.str "acme" ∧
    Json.str "acme" ≠ Json.str "zeta" := by
  refine ⟨rfl, ?_⟩
  intro h
  injection h with h2
  exact absurd h2 (by decide)

/-- C1 amended: the code's precedence is the reverse of the claimed one. If the
room name starts with the test marker and splits on hyphens into at least two
segments, the second segment is the effective identifier regardless of the
metadata; only otherwise is the metadata-derived identifier used (the agent_id
field of a JSON-object metadata, else the default identifier). -/
theorem C1_precedence_amended (m : Option Json) (r : String) :
    extract_agent_id m r =
      if pyStartsWith r "test-" = true ∧ (pySplit r '-').length ≥ 2 then
        Json.str ((pySplit r '-').getD 1 "")
      else metaAgentId m := by
  unfold extract_agent_id
  by_cases h1 : pyStartsWith r "test-" = true
  · by_cases h2 : (pySplit r '-').length ≥ 2
    · simp [h1, h2]
    · simp [h1, h2]
  · simp [h1]

/-- C2 counterexample: an empty JSON object body on a 200 response does not
fail the fetch — pydantic fills every missing field with its class default, so
resolve returns an all-class-defaults profile (distinct from the built-in
default, whose prompt is non-empty) and caches it under the requested id. -/
theorem C2_validation_counterexample :
    agentProfileOfJson (Json.obj []) = some ({} : AgentProfile) ∧
    (get_profile cmInit "acme" (FetchOutcome.resp 200 (some (Json.obj [])))).1 ≠
      cmInit._default ∧
    lookupCache (get_profile cmInit "acme"
        (FetchOutcome.resp 200 (some (Json.obj [])))).2._cache "acme" =
      some ({} : AgentProfile) := by
  refine ⟨rfl, ?_, rfl⟩
  intro h
  exact absurd (congrArg AgentProfile.system_prompt h) (by decide)

/-- C2 amended: on a 200 response body, a failed pydantic validation — a
non-object body, or any present field of the wrong type — fails the entire
fetch: resolve returns the built-in default and caches nothing, and no profile
is ever built as a mix of fetched and default fields beyond pydantic's rule
that a field absent from the body takes its class default; in particular an
empty JSON object yields the all-class-defaults profile, which is cached. -/
theorem C2_validation_amended (cm : ConfigManager) (aid : String) (body : Json)
    (hmiss : lookupCache cm._cache aid = none) (hb : cm.n8n_base ≠ "") :
    (someFieldMistyped body = true → agentProfileOfJson body = none) ∧
    (agentProfileOfJson body = none →
      get_profile cm aid (FetchOutcome.resp 200 (some body)) = (cm._default, cm)) ∧
    (∀ p, agentProfileOfJson body = some p →
      get_profile cm aid (FetchOutcome.resp 200 (some body)) =
        (p, { cm with _cache := insertCache cm._cache aid p })) ∧
    agentProfileOfJson (Json.obj []) = some ({} : AgentProfile) := by
  refine ⟨mistyped_profile_none body, ?_, ?_, rfl⟩
  · intro hnone
    exact get_profile_fail cm aid _ hmiss
      (Or.inr (by rw [fetchYieldsProfile_resp200]; exact hnone))
  · intro p hsome
    exact get_profile_success cm aid _ p hmiss hb
      (by rw [fetchYieldsProfile_resp200]; exact hsome)

/-- C2 witness: at a concrete manager and a body whose name field is a number,
validation fails and resolve falls back to the built-in default without
caching. -/
theorem C2_validation_amended_witness :
    agentProfileOfJson (Json.obj [("name", Json.num 5)]) = none ∧
    get_profile cmFix "acme"
        (FetchOutcome.resp 200 (some (Json.obj [("name", Json.num 5)]))) =
      (cmFix._default, cmFix) := by
  have h := C2_validation_amended cmFix "acme" (Json.obj [("name", Json.num 5)])
    rfl (by decide)
  exact ⟨h.1 rfl, h.2.1 (h.1 rfl)⟩

/-- C3: on a cache miss, any failing fetch — no source configured, network
error, timeout, non-200 status, malformed body, or invalid profile — returns
the built-in default profile and leaves the cache without an entry for the
requested id, so a later resolve for it attempts the fetch again. -/
theorem C3_fallback_not_cached (cm : ConfigManager) (aid : String)
    (f : FetchOutcome) (hmiss : lookupCache cm._cache aid = none)
    (hfail : cm.n8n_base = "" ∨ fetchYieldsProfile f = none) :
    get_profile cm aid f = (cm._default, cm) ∧
    lookupCache (get_profile cm aid f).2._cache aid = none := by
  have h := get_profile_fail cm aid f hmiss hfail
  refine ⟨h, ?_⟩
  rw [h]
  exact hmiss

/-- C3 witness: resolving ghost against a 404 response returns the default and
does not populate the cache. -/
theorem C3_fallback_not_cached_witness :
    get_profile cmFix "ghost" f404 = (cmFix._default, cmFix) ∧
    lookupCache (get_profile cmFix "ghost" f404).2._cache "ghost" = none :=
  C3_fallback_not_cached cmFix "ghost" f404 rfl (Or.inr rfl)

/-- C4: a cache hit returns the cached value with the manager unchanged and a
result independent of the external world (no external call can influence it),
and any later resolve of the same id again returns that identical value. -/
theorem C4_cache_hit_stable (cm : ConfigManager) (aid : String)
    (p : AgentProfile) (f f2 : FetchOutcome)
    (hhit : lookupCache cm._cache aid = some p) :
    get_profile cm aid f = (p, cm) ∧
    get_profile (get_profile cm aid f).2 aid f2 =
      (p, (get_profile cm aid f).2) := by
  have h := get_profile_hit cm aid f p hhit
  refine ⟨h, ?_⟩
  rw [h]
  exact get_profile_hit cm aid f2 p hhit

/-- C4 witness: with acme cached, resolve returns the cached profile for two
different fetch outcomes without touching the state. -/
theorem C4_cache_hit_stable_witness :
    get_profile cmHit "acme" FetchOutcome.err = (pFix, cmHit) ∧
    get_profile (get_profile cmHit "acme" FetchOutcome.err).2 "acme" f404 =
      (pFix, (get_profile cmHit "acme" FetchOutcome.err).2) :=
  C4_cache_hit_stable cmHit "acme" pFix FetchOutcome.err f404 rfl

/-- C5: resolve is total — for every manager state, identifier and fetch
outcome it returns a profile, which is the built-in default, the cached value,
or the successfully fetched profile; every exception of the fetch path is
caught inside get_profile, so no error reaches the caller. -/
theorem C5_resolve_total (cm : ConfigManager) (aid : String) (f : FetchOutcome) :
    (get_profile cm aid f).1 = cm._default ∨
    lookupCache cm._cache aid = some (get_profile cm aid f).1 ∨
    fetchYieldsProfile f = some (get_profile cm aid f).1 := by
  cases hl : lookupCache cm._cache aid with
  | some p =>
    rw [get_profile_hit cm aid f p hl]
    right; left
    rfl
  | none =>
    by_cases hb : cm.n8n_base = ""
    · rw [get_profile_fail cm aid f hl (Or.inl hb)]
      left; rfl
    · cases hf : fetchYieldsProfile f with
      | none =>
        rw [get_profile_fail cm aid f hl (Or.inr hf)]
        left; rfl
      | some p =>
        rw [get_profile_success cm aid f p hl hb hf]
        right; right
        rfl

/-- C6 counterexample: invalidate with the empty string as the given agent_id
is not the claimed single-entry removal — the key is absent from the cache, so
the call should be a no-op, yet the unrelated entry under key a is removed
(the whole cache is cleared). -/
theorem C6_invalidate_frame_counterexample :
    lookupCache cmC6._cache "" = none ∧
    lookupCache cmC6._cache "a" = some ({} : AgentProfile) ∧
    lookupCache (invalidate cmC6 (some ""))._cache "a" = none :=
  ⟨rfl, rfl, rfl⟩

/-- C6 amended: for a NON-EMPTY given agent_id, invalidate removes exactly
that entry (none afterward; every other key unchanged; no-op when absent) and
leaves the default profile untouched; with the argument omitted it clears the
entire cache, the default profile survives, and resolve still returns it for
any identifier with no cached or fetchable source. The empty string, being
falsy in Python, takes the clear branch instead of single-entry removal. -/
theorem C6_invalidate_frame_amended (cm : ConfigManager) (aid : String)
    (h : aid ≠ "") :
    lookupCache (invalidate cm (some aid))._cache aid = none ∧
    (∀ k, k ≠ aid → lookupCache (invalidate cm (some aid))._cache k =
      lookupCache cm._cache k) ∧
    (invalidate cm (some aid))._default = cm._default ∧
    (invalidate cm none)._cache = [] ∧
    (invalidate cm none)._default = cm._default ∧
    (∀ aid2 f, cm.n8n_base = "" ∨ fetchYieldsProfile f = none →
      (get_profile (invalidate cm none) aid2 f).1 = cm._default) := by
  have hinv : invalidate cm (some aid) = { cm with _cache := eraseKey cm._cache aid } := by
    simp only [invalidate]
    rw [if_pos h]
  refine ⟨?_, ?_, ?_, rfl, rfl, ?_⟩
  · rw [hinv]
    exact lookupCache_eraseKey_self cm._cache aid
  · intro k hk
    rw [hinv]
    exact lookupCache_eraseKey_ne cm._cache aid k hk
  · rw [hinv]
  · intro aid2 f hfail
    have h2 := get_profile_fail { cm with _cache := [] } aid2 f rfl hfail
    rw [show invalidate cm none = { cm with _cache := [] } from rfl, h2]

/-- C6 witness: at a concrete manager, removing key a leaves key b unchanged,
clearing leaves an empty cache, and resolve afterwards still returns the
default. -/
theorem C6_invalidate_frame_amended_witness :
    lookupCache (invalidate cmC6 (some "a"))._cache "a" = none ∧
    lookupCache (invalidate cmC6 (some "a"))._cache "b" =
      lookupCache cmC6._cache "b" ∧
    (invalidate cmC6 none)._cache = [] ∧
    (get_profile (invalidate cmC6 none) "zeta" FetchOutcome.err).1 =
      cmC6._default := by
  have h := C6_invalidate_frame_amended cmC6 "a" (by decide)
  exact ⟨h.1, h.2.1 "b" (by decide), h.2.2.2.1,
    h.2.2.2.2.2 "zeta" FetchOutcome.err (Or.inl rfl)⟩

/-- C7 counterexample: the empty-string identifier is not normalized to the
default identifier — a successful fetch through resolve with the empty string
writes the cache under the empty-string key and not under the default key,
while resolve with the default identifier writes the default key. -/
theorem C7_empty_id_counterexample :
    lookupCache (get_profile cmFix "" fOk).2._cache "" = some pFix ∧
    lookupCache (get_profile cmFix "" fOk).2._cache "default" = none ∧
    lookupCache (get_profile cmFix "default" fOk).2._cache "default" = some pFix ∧
    lookupCache (get_profile cmFix "default" fOk).2._cache "" = none :=
  ⟨rfl, rfl, rfl, rfl⟩

/-- C7 amended: a resolve call with the argument absent is exactly a call with
the default identifier (Python default argument), and a call with any present
string uses that string as given; in particular the empty string is NOT
normalized — a successful fetch for it is cached under the empty-string key. -/
theorem C7_empty_id_amended (cm : ConfigManager) (f : FetchOutcome) :
    get_profile_opt cm none f = get_profile cm "default" f ∧
    (∀ s, get_profile_opt cm (some s) f = get_profile cm s f) ∧
    (∀ p, lookupCache cm._cache "" = none → cm.n8n_base ≠ "" →
      fetchYieldsProfile f = some p →
      (get_profile cm "" f).2._cache = insertCache cm._cache "" p) := by
  refine ⟨rfl, fun s => rfl, ?_⟩
  intro p hmiss hb hok
  rw [get_profile_success cm "" f p hmiss hb hok]

/-- C7 witness: at a concrete manager the absent-argument call equals the
default-identifier call, and a successful empty-string fetch stores under the
empty-string key. -/
theorem C7_empty_id_amended_witness :
    get_profile_opt cmFix none fOk = get_profile cmFix "default" fOk ∧
    (get_profile cmFix "" fOk).2._cache = insertCache cmFix._cache "" pFix := by
  have h := C7_empty_id_amended cmFix fOk
  exact ⟨h.1, h.2.2 pFix rfl (by decide) rfl⟩

/-- C8: with truthy signing credentials and body agentId acme, the token
endpoint succeeds with a room name that is the test marker, the agent id and
a non-empty all-digits timestamp, hyphen-separated; the response echoes the
agent id; and the token is the external signature, non-empty whenever the
external signing routine returns a non-empty string. -/
theorem C8_token_room_name
    (sign : String → String → String → String → VideoGrants → String)
    (env : ServerEnv) (body : TokenBody) (ts : Nat)
    (hkey : pyTruthy env.LIVEKIT_API_KEY = true)
    (hsec : pyTruthy env.LIVEKIT_API_SECRET = true)
    (hagent : body.agentId = some "acme")
    (hsign : ∀ k s i n g, sign k s i n g ≠ "") :
    ∃ r : TokenResponse, generate_token sign env body ts = Except.ok r ∧
      (∃ d : String, r.roomName = "test-acme-" ++ d ∧ d ≠ "" ∧
        ∀ c ∈ d.data, c.isDigit = true) ∧
      r.token ≠ "" ∧ r.agentId = "acme" := by
  unfold generate_token
  rw [hagent]
  simp only [hkey, hsec, Bool.and_self, if_true, Option.getD_some]
  refine ⟨_, rfl, ⟨toString ts, ?_, natToString_ne_empty ts,
    (natToString_digits ts).2⟩, hsign _ _ _ _ _, rfl⟩
  rfl

/-- C8 witness: a concrete request against the fixture environment and signing
function. -/
theorem C8_token_room_name_witness :
    ∃ r : TokenResponse, generate_token signFix serverEnvFix
        { agentId := some "acme", userName := some "T" } 1700000000 =
        Except.ok r ∧
      (∃ d : String, r.roomName = "test-acme-" ++ d ∧ d ≠ "" ∧
        ∀ c ∈ d.data, c.isDigit = true) ∧
      r.token ≠ "" ∧ r.agentId = "acme" :=
  C8_token_room_name signFix serverEnvFix
    { agentId := some "acme", userName := some "T" } 1700000000
    rfl rfl rfl (by intro k s i n g; show ("hh.pp.ss" : String) ≠ ""; decide)

/-- C9: invalidate with the empty string clears the entire cache, exactly as
the omitted-argument call does, rather than removing only an entry keyed by
the empty string — the Python truthiness guard sends both to clear. -/
theorem C9_invalidate_empty_clears_all (cm : ConfigManager) :
    invalidate cm (some "") = invalidate cm none ∧
    (invalidate cm (some ""))._cache = [] := by
  constructor
  · unfold invalidate
    simp
  · unfold invalidate
    simp

/-- C10: two token requests with valid credentials that agree on agentId and
userName but differ arbitrarily in the language and voice body fields produce
identical responses at the same timestamp — language and voice are read into
local variables that never reach the token, the room name, the URL or the
echoed agent id. -/
theorem C10_language_voice_noninterference
    (sign : String → String → String → String → VideoGrants → String)
    (env : ServerEnv) (b1 b2 : TokenBody) (ts : Nat)
    (hA : b1.agentId = b2.agentId) (hU : b1.userName = b2.userName)
    (hkey : pyTruthy env.LIVEKIT_API_KEY = true)
    (hsec : pyTruthy env.LIVEKIT_API_SECRET = true) :
    generate_token sign env b1 ts = generate_token sign env b2 ts := by
  unfold generate_token
  rw [hA, hU]

/-- C10 witness: two concrete requests differing only in language and voice
yield the same response. -/
theorem C10_language_voice_noninterference_witness :
    generate_token signFix serverEnvFix
      { agentId := some "acme", language := some "hi-IN", voice := some "arya",
        userName := some "T" } 1700000000 =
    generate_token signFix serverEnvFix
      { agentId := some "acme", language := some "ta-IN", voice := some "vidya",
        userName := some "T" } 1700000000 :=
  C10_language_voice_noninterference signFix serverEnvFix
    { agentId := some "acme", language := some "hi-IN", voice := some "arya",
      userName := some "T" }
    { agentId := some "acme", language := some "ta-IN", voice := some "vidya",
      userName := some "T" } 1700000000 rfl rfl rfl rfl
